import Mathlib

/-!
Verification of the Campus-BookSwap conversation & notification engine.

The definitions below are a shallow embedding of the JavaScript source:
  * src/js/notifications.js  (class NotificationSystem)
  * src/js/messaging.js      (class MessagingSystem)
  * src/js/book-messaging.js (class BookMessaging)

Browser localStorage is modelled as an explicit environment value, DOM input
is passed as explicit parameters, `Date.now()` / `new Date().toISOString()`
are modelled by a natural-number clock parameter `now`, and the random draws
of the simulated event source are passed in as explicit parameters.  Every
JavaScript method that mutates `this` is embedded as a pure function from the
old state (plus its inputs) to the new state together with its observable
outputs (the value returned to the caller and whether localStorage was
written).
-/

namespace BookSwap

/-- A logged-in user as stored under the localStorage key `currentUser`
(only the fields the engine reads). -/
structure User where
  id : String
  name : String
deriving Repr, DecidableEq

/-! ## Data model of notifications.js -/

/-- A notification object as built by `NotificationSystem.addNotification`.
The `data` payload is an opaque blob (the engine never inspects it). -/
structure Notification where
  id : String
  type : String
  message : String
  timestamp : Nat
  read : Bool
  seen : Bool
  data : String
  link : Option String
deriving Repr, DecidableEq

/-- The slice of localStorage the notification system touches: the
`currentUser` entry and the `bookswap_notifications` entry (an absent key is
the empty list). -/
structure NotifEnv where
  storedUser : Option User
  storedNotifications : List Notification
deriving Repr, DecidableEq

/-- The in-memory state of a `NotificationSystem` instance.  The constructor
copies both localStorage entries into the instance; in particular
`currentUser` is a cache taken at construction time and is never re-read. -/
structure NotifSys where
  currentUser : Option User
  notifications : List Notification
deriving Repr, DecidableEq

/-- The `NotificationSystem` constructor: caches `getCurrentUser()` and
`loadNotificationsFromStorage()`. -/
def mkSystem (env : NotifEnv) : NotifSys :=
  { currentUser := env.storedUser, notifications := env.storedNotifications }

/-- Logout (auth module, e.g. `handleLogout`): removes the `currentUser`
entry from localStorage.  Existing `NotificationSystem` instances are not
told about it. -/
def logout (env : NotifEnv) : NotifEnv :=
  { env with storedUser := none }

/-- Result of a state-changing notification operation: the new instance
state, the new localStorage contents, and whether
`saveNotificationsToStorage` ran (`wrote`). -/
structure NotifStep where
  sys : NotifSys
  env : NotifEnv
  wrote : Bool
deriving Repr, DecidableEq

/-- A JavaScript value as returned by `addNotification` (the source returns
the booleans `false`/`true`; the sum type lets the spec's claimed return
value, the Notification object itself, be stated and compared). -/
inductive JsValue where
  | bool (b : Bool)
  | obj (n : Notification)
deriving Repr, DecidableEq

/-- Check whether a returned JavaScript value is a Notification object. -/
def JsValue.isNotifObj : JsValue → Bool
  | .bool _ => false
  | .obj _ => true

/-- Result of `addNotification`: state, store, write flag and the value
returned to the caller. -/
structure AddStep where
  sys : NotifSys
  env : NotifEnv
  wrote : Bool
  ret : JsValue
deriving Repr, DecidableEq

/-- The caller-supplied part of a notification
(`{ type, message, data, link }` as passed to `addNotification`). -/
structure NotifReq where
  type : String
  message : String
  data : String
  link : Option String
deriving Repr, DecidableEq

/-- The notification object `addNotification` builds: fresh id
`notification_<Date.now()>_<random suffix>`, current timestamp,
`read = false`, `seen = false`. -/
def mkNotif (req : NotifReq) (now : Nat) (sfx : String) : Notification :=
  { id := "notification_" ++ toString now ++ "_" ++ sfx
    type := req.type
    message := req.message
    timestamp := now
    read := false
    seen := false
    data := req.data
    link := req.link }

/-- `NotificationSystem.addNotification`: returns `false` and does nothing
when the cached `currentUser` is null; otherwise unshifts the new
notification, saves to storage and returns `true`. -/
def addNotification (sys : NotifSys) (env : NotifEnv) (req : NotifReq)
    (now : Nat) (sfx : String) : AddStep :=
  if sys.currentUser.isSome then
    let n := mkNotif req now sfx
    let ns := n :: sys.notifications
    { sys := { sys with notifications := ns }
      env := { env with storedNotifications := ns }
      wrote := true
      ret := JsValue.bool true }
  else
    { sys := sys, env := env, wrote := false, ret := JsValue.bool false }

/-- One firing of the `setInterval` callback installed by
`startNotificationPolling`: if the cached `currentUser` is non-null and the
10% random draw (`draw`) succeeds, `simulateNewNotification` builds a request
`req` from further random draws and feeds it to `addNotification`. -/
def pollTick (sys : NotifSys) (env : NotifEnv) (draw : Bool) (req : NotifReq)
    (now : Nat) (sfx : String) : NotifStep :=
  if sys.currentUser.isSome then
    if draw then
      let a := addNotification sys env req now sfx
      { sys := a.sys, env := a.env, wrote := a.wrote }
    else
      { sys := sys, env := env, wrote := false }
  else
    { sys := sys, env := env, wrote := false }

/-- `NotificationSystem.getUnreadCount`. -/
def getUnreadCount (ns : List Notification) : Nat :=
  if ns.isEmpty then 0
  else (ns.filter (fun n => !n.read)).length

/-- `NotificationSystem.markAllAsRead`: early-returns on an empty list,
otherwise sets every `read` flag and saves. -/
def markAllAsRead (sys : NotifSys) (env : NotifEnv) : NotifStep :=
  if sys.notifications.isEmpty then
    { sys := sys, env := env, wrote := false }
  else
    let ns := sys.notifications.map (fun n => { n with read := true })
    { sys := { sys with notifications := ns }
      env := { env with storedNotifications := ns }
      wrote := true }

/-- `NotificationSystem.markNotificationsAsSeen`: early-returns on an empty
list, otherwise sets every `seen` flag and saves. -/
def markNotificationsAsSeen (sys : NotifSys) (env : NotifEnv) : NotifStep :=
  if sys.notifications.isEmpty then
    { sys := sys, env := env, wrote := false }
  else
    let ns := sys.notifications.map (fun n => { n with seen := true })
    { sys := { sys with notifications := ns }
      env := { env with storedNotifications := ns }
      wrote := true }

/-- Mutation performed by `markAsRead` through the reference returned by
`this.notifications.find(n => n.id === notificationId)`: the first
notification with the given id gets `read = true`, everything else is left
alone. -/
def setReadFirst (nid : String) : List Notification → List Notification
  | [] => []
  | n :: ns =>
    if n.id = nid then { n with read := true } :: ns
    else n :: setReadFirst nid ns

/-- `NotificationSystem.markAsRead`: a silent no-op (no save) when no
notification has the id, otherwise flips that notification's `read` flag and
saves. -/
def markAsRead (sys : NotifSys) (env : NotifEnv) (nid : String) : NotifStep :=
  match sys.notifications.find? (fun n => n.id = nid) with
  | none => { sys := sys, env := env, wrote := false }
  | some _ =>
    let ns := setReadFirst nid sys.notifications
    { sys := { sys with notifications := ns }
      env := { env with storedNotifications := ns }
      wrote := true }

/-- Projection of every notification field except `read`
(used to state frame properties of the mark operations). -/
def projNoRead (n : Notification) :
    String × String × String × Nat × Bool × String × Option String :=
  (n.id, n.type, n.message, n.timestamp, n.seen, n.data, n.link)

/-- Projection of every notification field except `seen`. -/
def projNoSeen (n : Notification) :
    String × String × String × Nat × Bool × String × Option String :=
  (n.id, n.type, n.message, n.timestamp, n.read, n.data, n.link)

/-! ## Dropdown / notifications-page rendering order (notifications.js)

`renderNotifications` and `generateNotificationsPage` copy the stored list,
sort it with the comparator
`(a, b) => new Date(b.timestamp) - new Date(a.timestamp)` (newest first) and,
for the dropdown, keep the first 5.  `Array.prototype.sort` is a stable sort,
modelled here by stable insertion sort over the same ordering. -/

/-- Stable insertion of a notification into a newest-first list: `a` is
placed before the first element that is not newer than it, so elements with
equal timestamps keep their original relative order (JS sort stability). -/
def insertDesc (a : Notification) : List Notification → List Notification
  | [] => [a]
  | b :: l =>
    if b.timestamp ≤ a.timestamp then a :: b :: l
    else b :: insertDesc a l

/-- Stable sort by timestamp, newest first — the model of
`[...this.notifications].sort((a, b) => new Date(b.timestamp) - new Date(a.timestamp))`. -/
def sortDesc : List Notification → List Notification
  | [] => []
  | a :: l => insertDesc a (sortDesc l)

/-- The sequence `renderNotifications` puts into the dropdown: sort newest
first, then `slice(0, 5)`. -/
def renderSelection (ns : List Notification) : List Notification :=
  (sortDesc ns).take 5

/-- Boolean check that a list is already in newest-first order
(each element's timestamp is at least its successor's). -/
def isSortedDesc : List Notification → Bool
  | [] => true
  | [_] => true
  | a :: b :: l => (b.timestamp ≤ a.timestamp) && isSortedDesc (b :: l)

/-! ## Toast lifecycle (notifications.js, showToastNotification)

A toast's only relevant state is whether it is still attached to the toast
container.  Three code paths schedule a detach 300ms after they fire:
the close-button click handler, the toast-body click handler, and the 5000ms
auto-hide timer.  The body-click and auto-hide paths guard the detach with
`toastContainer.contains(toast)`; the close-button path calls
`toastContainer.removeChild(toast)` unguarded, and `removeChild` on a node
that is no longer a child raises a DOM `NotFoundError`.  The single-threaded
event loop runs the scheduled detaches in time order, modelled as a list of
removal attempts processed left to right. -/

/-- Which code path scheduled a toast removal. -/
inductive RemovalPath where
  | closeButton
  | toastClick
  | autoTimeout
deriving Repr, DecidableEq

/-- Whether the path checks `toastContainer.contains(toast)` before calling
`removeChild`. -/
def removalGuarded : RemovalPath → Bool
  | .closeButton => false
  | .toastClick => true
  | .autoTimeout => true

/-- A toast: attached to the container or already detached. -/
structure Toast where
  attached : Bool
deriving Repr, DecidableEq

/-- Outcome of one scheduled `removeChild` running. -/
structure RemovalOutcome where
  toast : Toast
  removed : Bool
  errored : Bool
deriving Repr, DecidableEq

/-- One scheduled removal firing: detaches an attached toast; on a detached
toast a guarded path does nothing and the unguarded close-button path raises
(`removeChild` of a non-child). -/
def attemptRemoval (t : Toast) (p : RemovalPath) : RemovalOutcome :=
  if t.attached then { toast := { attached := false }, removed := true, errored := false }
  else if removalGuarded p then { toast := t, removed := false, errored := false }
  else { toast := t, removed := false, errored := true }

/-- Cumulative outcome of a run of scheduled removals. -/
structure RunOutcome where
  toast : Toast
  removals : Nat
  errors : Nat
deriving Repr, DecidableEq

/-- Run the scheduled removals in the order the event loop fires them. -/
def runRemovals (t : Toast) : List RemovalPath → RunOutcome
  | [] => { toast := t, removals := 0, errors := 0 }
  | p :: ps =>
    let o := attemptRemoval t p
    let r := runRemovals o.toast ps
    { toast := r.toast
      removals := (if o.removed then 1 else 0) + r.removals
      errors := (if o.errored then 1 else 0) + r.errors }

/-- Removal schedule for a toast with an optional explicit close at time
`closeAt` racing the 5000ms auto-hide: each trigger schedules its detach
300ms after it fires, and the event loop runs them in time order. -/
def raceSchedule (closeAt : Option Nat) : List RemovalPath :=
  match closeAt with
  | none => [RemovalPath.autoTimeout]
  | some d =>
    if d + 300 ≤ 5000 + 300 then [RemovalPath.closeButton, RemovalPath.autoTimeout]
    else [RemovalPath.autoTimeout, RemovalPath.closeButton]

/-! ## Data model of messaging.js / book-messaging.js -/

/-- A participant record on a conversation.  The current user's record is
written without a `whatsappNumber` field (`none`); the other participant gets
the provided number or `''`. -/
structure Participant where
  id : String
  name : String
  whatsappNumber : Option String
deriving Repr, DecidableEq

/-- A message inside a conversation. -/
structure Message where
  id : String
  senderId : String
  text : String
  timestamp : Nat
  read : Bool
deriving Repr, DecidableEq

/-- A conversation under the localStorage key `bookswap_conversations`. -/
structure Conversation where
  id : String
  participants : List Participant
  bookId : String
  bookTitle : String
  messages : List Message
deriving Repr, DecidableEq

/-- In-memory state of a `MessagingSystem` instance plus the
`bookswap_conversations` store it persists to.  `initMessagingSystem` bails
out when nobody is logged in, so an operating instance always has a user. -/
structure MsgSys where
  currentUser : User
  conversations : List Conversation
  store : List Conversation
  activeConversationId : Option String
deriving Repr, DecidableEq

/-- Update the first conversation with the given id (JS
`conversations.find(c => c.id === cid)` hands back a reference which is then
mutated in place). -/
def updateFirstConv (cid : String) (f : Conversation → Conversation) :
    List Conversation → List Conversation
  | [] => []
  | c :: cs =>
    if c.id = cid then f c :: cs
    else c :: updateFirstConv cid f cs

/-- Outcome of `MessagingSystem.sendMessage`: which early return fired, or
the appended message. -/
inductive SendResult where
  | emptyBody
  | noActive
  | notFound
  | sent (m : Message)
deriving Repr, DecidableEq

/-- Model of JavaScript `String.prototype.trim`: strip whitespace from both
ends of the string (written over the character list so that it evaluates
inside the kernel). -/
def jsTrim (s : String) : String :=
  { data := ((s.data.dropWhile Char.isWhitespace).reverse.dropWhile Char.isWhitespace).reverse }

/-- The message object `sendMessage` builds (`Date.now().toString()` id,
trimmed text, current timestamp, `read = false`). -/
def mkMessage (senderId text : String) (now : Nat) : Message :=
  { id := toString now
    senderId := senderId
    text := text
    timestamp := now
    read := false }

/-- `MessagingSystem.sendMessage` with the chat-input text passed in
explicitly: returns after trimming an empty body, after a missing active
conversation id, or after a failed lookup, all without touching state;
otherwise pushes one new message onto the conversation and saves. -/
def sendMessage (s : MsgSys) (input : String) (now : Nat) :
    MsgSys × SendResult :=
  let text := jsTrim input
  if text = "" then (s, SendResult.emptyBody)
  else
    match s.activeConversationId with
    | none => (s, SendResult.noActive)
    | some cid =>
      match s.conversations.find? (fun c => c.id = cid) with
      | none => (s, SendResult.notFound)
      | some _ =>
        let m := mkMessage s.currentUser.id text now
        let convs := updateFirstConv cid
          (fun c => { c with messages := c.messages ++ [m] }) s.conversations
        ({ s with conversations := convs, store := convs }, SendResult.sent m)

/-- `MessagingSystem.markMessagesAsRead`: no-op when the conversation is not
found, otherwise sets `read = true` on every message not sent by the current
user and saves. -/
def markMessagesAsRead (s : MsgSys) (cid : String) : MsgSys :=
  match s.conversations.find? (fun c => c.id = cid) with
  | none => s
  | some _ =>
    let convs := updateFirstConv cid
      (fun c =>
        { c with
          messages := c.messages.map (fun m =>
            if m.senderId = s.currentUser.id then m
            else { m with read := true }) }) s.conversations
    { s with conversations := convs, store := convs }

/-- The other user handed to `createNewConversation`. -/
structure OtherUser where
  id : String
  name : String
  whatsappNumber : Option String
deriving Repr, DecidableEq

/-- A book reference. -/
structure Book where
  id : String
  title : String
deriving Repr, DecidableEq

/-- `MessagingSystem.createNewConversation`: unconditionally builds a fresh
conversation (id `Date.now().toString()`) holding the initial message, pushes
it onto the list, saves, and returns the new id.  There is no lookup for an
existing conversation with the same participants and book. -/
def createNewConversation (s : MsgSys) (other : OtherUser) (book : Book)
    (initialMessage : String) (now : Nat) : MsgSys × String :=
  let conv : Conversation :=
    { id := toString now
      participants :=
        [ { id := s.currentUser.id, name := s.currentUser.name, whatsappNumber := none }
        , { id := other.id, name := other.name
            whatsappNumber := some (other.whatsappNumber.getD "") } ]
      bookId := book.id
      bookTitle := book.title
      messages := [mkMessage s.currentUser.id initialMessage now] }
  let convs := s.conversations ++ [conv]
  ({ s with conversations := convs, store := convs }, toString now)

/-- Operations of the messaging subsystem that touch message read flags or
the conversation list, as enumerated by the read-monotonicity claim. -/
inductive MsgOp where
  | send (input : String) (now : Nat)
  | markRead (cid : String)
  | selectConv (cid : String)
  | newConv (other : OtherUser) (book : Book) (initialMessage : String) (now : Nat)
  | reload
deriving Repr, DecidableEq

/-- One operation on a `MessagingSystem`.  `selectConv` is the first half of
the conversation-item click handler (which then calls
`loadConversationMessages`, i.e. `markRead`); `reload` rebuilds the instance
from the persisted store (a JSON round trip), which also resets the active
conversation. -/
def msgStep (s : MsgSys) : MsgOp → MsgSys
  | .send input now => (sendMessage s input now).1
  | .markRead cid => markMessagesAsRead s cid
  | .selectConv cid => { s with activeConversationId := some cid }
  | .newConv other book msg now => (createNewConversation s other book msg now).1
  | .reload => { s with conversations := s.store, activeConversationId := none }

/-- Run a sequence of messaging operations. -/
def msgRun (s : MsgSys) (ops : List MsgOp) : MsgSys :=
  ops.foldl msgStep s

/-- The read flag of message number `j` of conversation number `i` of a
conversation list. -/
def readAtL (l : List Conversation) (i j : Nat) : Option Bool :=
  (l.get? i).bind fun c => (c.messages.get? j).map (fun m => m.read)

/-- The read flag of message number `j` of conversation number `i`. -/
def readAt (s : MsgSys) (i j : Nat) : Option Bool :=
  readAtL s.conversations i j

/-- The full message number `j` of conversation number `i` of a conversation
list. -/
def msgAtL (l : List Conversation) (i j : Nat) : Option Message :=
  (l.get? i).bind fun c => c.messages.get? j

/-- The full message number `j` of conversation number `i`. -/
def msgAt (s : MsgSys) (i j : Nat) : Option Message :=
  msgAtL s.conversations i j

/-! ## BookMessaging.createOrUpdateConversation (book-messaging.js)

This is the identity-resolving entry point: it works directly on the
persisted `bookswap_conversations` list. -/

/-- The lookup predicate of `createOrUpdateConversation`: same book, seller
among the participants, current user among the participants (the participant
pair is matched as an unordered pair). -/
def convMatches (bookId meId sellerId : String) (c : Conversation) : Bool :=
  c.bookId = bookId &&
    c.participants.any (fun p => p.id = sellerId) &&
    c.participants.any (fun p => p.id = meId)

/-- Update the first conversation satisfying a predicate (the reference
returned by `conversations.find(...)` is mutated in place). -/
def updateFirstMatch (p : Conversation → Bool) (f : Conversation → Conversation) :
    List Conversation → List Conversation
  | [] => []
  | c :: cs =>
    if p c then f c :: cs
    else c :: updateFirstMatch p f cs

/-- `BookMessaging.createOrUpdateConversation`: if a conversation for the
same book and the same unordered participant pair exists, push the message
onto it; otherwise push a brand-new conversation; then save. -/
def createOrUpdateConversation (me : User) (bookId bookTitle sellerId sellerName
    messageText : String) (now : Nat) (store : List Conversation) :
    List Conversation :=
  match store.find? (convMatches bookId me.id sellerId) with
  | some _ =>
    updateFirstMatch (convMatches bookId me.id sellerId)
      (fun c => { c with messages := c.messages ++ [mkMessage me.id messageText now] })
      store
  | none =>
    store ++
      [ { id := toString now
          participants :=
            [ { id := me.id, name := me.name, whatsappNumber := none }
            , { id := sellerId, name := sellerName, whatsappNumber := some "" } ]
          bookId := bookId
          bookTitle := bookTitle
          messages := [mkMessage me.id messageText now] } ]

/-- Number of stored conversations about the given book between the given
unordered pair of participants. -/
def countMatching (bookId meId sellerId : String) (store : List Conversation) : Nat :=
  (store.filter (convMatches bookId meId sellerId)).length

/-! ## Helper lemmas -/

theorem filter_not_read_map_read_true (ns : List Notification) :
    (ns.map (fun n => { n with read := true })).filter (fun n => !n.read) = [] := by
  induction ns with
  | nil => rfl
  | cons a l ih => simp [List.filter_cons, ih]

theorem all_seen_map_seen_true (ns : List Notification) :
    (ns.map (fun n => { n with seen := true })).all (fun n => n.seen) = true := by
  induction ns with
  | nil => rfl
  | cons a l ih => simp [ih]

theorem map_projNoSeen_map_seen_true (ns : List Notification) :
    (ns.map (fun n => { n with seen := true })).map projNoSeen = ns.map projNoSeen := by
  induction ns with
  | nil => rfl
  | cons a l ih => simp [projNoSeen, ih]

theorem filter_not_read_map_seen_true (ns : List Notification) :
    (ns.map (fun n => { n with seen := true })).filter (fun n => !n.read) =
      (ns.filter (fun n => !n.read)).map (fun n => { n with seen := true }) := by
  induction ns with
  | nil => rfl
  | cons a l ih =>
    by_cases h : a.read <;> simp [List.filter_cons, h, ih]

/-! ## Claim theorems -/

/-- C5 (confirmed).  Unread count correctness: `getUnreadCount` returns the
exact number of stored notifications whose `read` flag is `false` (no
capping), and immediately after `markAllAsRead` the unread count is exactly
0. -/
theorem unreadCount_exact_and_zero_after_markAll (ns : List Notification)
    (sys : NotifSys) (env : NotifEnv) :
    getUnreadCount ns = (ns.filter (fun n => !n.read)).length ∧
    getUnreadCount (markAllAsRead sys env).sys.notifications = 0 := by
  constructor
  · cases ns <;> simp [getUnreadCount]
  · by_cases h : sys.notifications.isEmpty
    · simp [markAllAsRead, h, getUnreadCount]
    · simp [markAllAsRead, h, getUnreadCount, filter_not_read_map_read_true]

/-- C7 (confirmed).  `markNotificationsAsSeen` sets `seen = true` on every
notification while leaving every other field of every notification — in
particular the `read` flag, hence the unread count — unchanged. -/
theorem markSeen_sets_seen_and_nothing_else (sys : NotifSys) (env : NotifEnv) :
    (markNotificationsAsSeen sys env).sys.notifications.all (fun n => n.seen) = true ∧
    (markNotificationsAsSeen sys env).sys.notifications.map projNoSeen =
      sys.notifications.map projNoSeen ∧
    (markNotificationsAsSeen sys env).sys.notifications.map (fun n => n.read) =
      sys.notifications.map (fun n => n.read) ∧
    getUnreadCount (markNotificationsAsSeen sys env).sys.notifications =
      getUnreadCount sys.notifications ∧
    (markNotificationsAsSeen sys env).sys.notifications.length =
      sys.notifications.length := by
  by_cases h : sys.notifications.isEmpty
  · rcases hn : sys.notifications with _ | ⟨a, l⟩
    · simp [markNotificationsAsSeen, hn]
    · rw [hn] at h; simp at h
  · refine ⟨?_, ?_, ?_, ?_, ?_⟩ <;>
      simp [markNotificationsAsSeen, h, all_seen_map_seen_true,
        map_projNoSeen_map_seen_true, getUnreadCount,
        filter_not_read_map_seen_true, List.isEmpty_eq_true, projNoSeen]
    intro hnil
    exact absurd (by simp [hnil]) h

theorem setReadFirst_split (nid : String) (pre : List Notification)
    (n : Notification) (post : List Notification)
    (hpre : ∀ m ∈ pre, m.id ≠ nid) (hn : n.id = nid) :
    setReadFirst nid (pre ++ n :: post) = pre ++ { n with read := true } :: post := by
  induction pre with
  | nil => simp [setReadFirst, hn]
  | cons a l ih =>
    have ha : a.id ≠ nid := hpre a (List.mem_cons_self a l)
    simp only [List.cons_append, setReadFirst, if_neg ha, List.append_eq]
    rw [ih (fun m hm => hpre m (List.mem_cons_of_mem a hm))]

theorem find?_id_split (nid : String) (pre : List Notification)
    (n : Notification) (post : List Notification)
    (hpre : ∀ m ∈ pre, m.id ≠ nid) (hn : n.id = nid) :
    (pre ++ n :: post).find? (fun m => m.id = nid) = some n := by
  induction pre with
  | nil => simp [List.find?_cons, hn]
  | cons a l ih =>
    have ha : a.id ≠ nid := hpre a (List.mem_cons_self a l)
    have hd : (decide (a.id = nid)) = false := decide_eq_false ha
    simp only [List.cons_append, List.find?_cons, hd]
    exact ih (fun m hm => hpre m (List.mem_cons_of_mem a hm))

/-- C10 (confirmed).  `markAsRead` with an unknown identifier is a silent
no-op: no error, no storage write, state (and hence unread count) exactly
unchanged.  With a matching identifier, only the first notification carrying
that id changes, and only in its `read` flag: everything before and after it
in the list is untouched. -/
theorem markAsRead_unknown_noop_known_targeted (sys : NotifSys) (env : NotifEnv)
    (nid : String) :
    (sys.notifications.find? (fun n => n.id = nid) = none →
      markAsRead sys env nid = { sys := sys, env := env, wrote := false }) ∧
    (∀ pre n post,
      sys.notifications = pre ++ n :: post →
      (∀ m ∈ pre, m.id ≠ nid) →
      n.id = nid →
      markAsRead sys env nid =
        { sys := { sys with notifications := pre ++ { n with read := true } :: post }
          env := { env with storedNotifications := pre ++ { n with read := true } :: post }
          wrote := true }) := by
  constructor
  · intro h
    simp [markAsRead, h]
  · intro pre n post hsplit hpre hn
    have hfind : sys.notifications.find? (fun m => m.id = nid) = some n := by
      rw [hsplit]; exact find?_id_split nid pre n post hpre hn
    have hset : setReadFirst nid sys.notifications =
        pre ++ { n with read := true } :: post := by
      rw [hsplit]; exact setReadFirst_split nid pre n post hpre hn
    simp [markAsRead, hfind, hset]

/-- Fixture user for concrete runs. -/
def uAnn : User := { id := "u1", name := "Ann" }

/-- Fixture notifications: one unread, one read. -/
def nFix1 : Notification :=
  { id := "n1", type := "system", message := "hello", timestamp := 10
    read := false, seen := false, data := "", link := none }

/-- Second fixture notification. -/
def nFix2 : Notification :=
  { id := "n2", type := "message", message := "hi", timestamp := 5
    read := false, seen := true, data := "", link := some "messages.html" }

theorem markAsRead_witness :
    markAsRead { currentUser := some uAnn, notifications := [nFix1, nFix2] }
        { storedUser := some uAnn, storedNotifications := [nFix1, nFix2] } "n2" =
      { sys := { currentUser := some uAnn
                 notifications := [nFix1, { nFix2 with read := true }] }
        env := { storedUser := some uAnn
                 storedNotifications := [nFix1, { nFix2 with read := true }] }
        wrote := true } ∧
    markAsRead { currentUser := some uAnn, notifications := [nFix1, nFix2] }
        { storedUser := some uAnn, storedNotifications := [nFix1, nFix2] } "zzz" =
      { sys := { currentUser := some uAnn, notifications := [nFix1, nFix2] }
        env := { storedUser := some uAnn, storedNotifications := [nFix1, nFix2] }
        wrote := false } := by
  constructor
  · exact (markAsRead_unknown_noop_known_targeted _ _ "n2").2 [nFix1] nFix2 []
      rfl (by decide) rfl
  · exact (markAsRead_unknown_noop_known_targeted _ _ "zzz").1 (by decide)

/-- Fixture request passed to `addNotification`. -/
def reqFix : NotifReq :=
  { type := "message", message := "New message from Alice", data := "", link := none }

/-- C4 (corrected).  `addNotification` gating and postcondition: with no
logged-in user it creates nothing, writes nothing and returns `false` (the
code's NoUser failure signal); otherwise it creates exactly one notification
with `read = false` and `seen = false`, inserts it at the head of the list,
persists the whole list — but it returns the boolean `true`, not the new
Notification object (the notification itself only flows to the toast
renderer). -/
theorem addNotification_gating_and_postcondition (sys : NotifSys) (env : NotifEnv)
    (req : NotifReq) (now : Nat) (sfx : String) :
    (sys.currentUser = none →
      addNotification sys env req now sfx =
        { sys := sys, env := env, wrote := false, ret := JsValue.bool false }) ∧
    (sys.currentUser.isSome = true →
      addNotification sys env req now sfx =
        { sys := { sys with notifications := mkNotif req now sfx :: sys.notifications }
          env := { env with storedNotifications := mkNotif req now sfx :: sys.notifications }
          wrote := true
          ret := JsValue.bool true }) ∧
    (mkNotif req now sfx).read = false ∧
    (mkNotif req now sfx).seen = false := by
  refine ⟨?_, ?_, rfl, rfl⟩
  · intro h
    simp [addNotification, h]
  · intro h
    simp [addNotification, h]

theorem addNotification_witness :
    addNotification { currentUser := none, notifications := [] }
        { storedUser := none, storedNotifications := [] } reqFix 3 "abc" =
      { sys := { currentUser := none, notifications := [] }
        env := { storedUser := none, storedNotifications := [] }
        wrote := false
        ret := JsValue.bool false } ∧
    addNotification { currentUser := some uAnn, notifications := [nFix1] }
        { storedUser := some uAnn, storedNotifications := [nFix1] } reqFix 3 "abc" =
      { sys := { currentUser := some uAnn
                 notifications := [mkNotif reqFix 3 "abc", nFix1] }
        env := { storedUser := some uAnn
                 storedNotifications := [mkNotif reqFix 3 "abc", nFix1] }
        wrote := true
        ret := JsValue.bool true } := by
  constructor
  · exact (addNotification_gating_and_postcondition _ _ reqFix 3 "abc").1 rfl
  · exact (addNotification_gating_and_postcondition _ _ reqFix 3 "abc").2.1 rfl

/-- C4 counterexample.  The claim says `addNotification` "returns the new
notification"; on a concrete successful call the returned JavaScript value is
the boolean `true`, not a Notification object. -/
theorem addNotification_returns_bool_not_notification :
    (addNotification { currentUser := some uAnn, notifications := [] }
        { storedUser := some uAnn, storedNotifications := [] } reqFix 3 "abc").ret =
      JsValue.bool true ∧
    (addNotification { currentUser := some uAnn, notifications := [] }
        { storedUser := some uAnn, storedNotifications := [] } reqFix 3 "abc").ret.isNotifObj =
      false := by
  exact ⟨rfl, rfl⟩

/-- The no-op-after-logout claim as stated: in every state whose STORED
current-user entry is absent, a firing of the simulated-event timer creates
no notification and performs no store write. -/
def claimLogoutNoOp : Prop :=
  ∀ (sys : NotifSys) (env : NotifEnv) (draw : Bool) (req : NotifReq)
    (now : Nat) (sfx : String),
    env.storedUser = none →
    pollTick sys env draw req now sfx = { sys := sys, env := env, wrote := false }

/-- C2 counterexample.  Construct the system while `uAnn` is logged in, then
log out (which only removes the stored entry — the instance keeps its cached
user): a pending tick whose 10% draw succeeds still creates a notification
and writes the store, even though the stored current-user entry is absent.
Hence the claim as stated is false. -/
theorem pollTick_after_logout_counterexample :
    (logout { storedUser := some uAnn, storedNotifications := [] }).storedUser = none ∧
    (pollTick (mkSystem { storedUser := some uAnn, storedNotifications := [] })
        (logout { storedUser := some uAnn, storedNotifications := [] })
        true reqFix 5 "abc").wrote = true ∧
    (pollTick (mkSystem { storedUser := some uAnn, storedNotifications := [] })
        (logout { storedUser := some uAnn, storedNotifications := [] })
        true reqFix 5 "abc").sys.notifications.length = 1 ∧
    ¬ claimLogoutNoOp := by
  refine ⟨rfl, rfl, rfl, ?_⟩
  intro h
  have := h (mkSystem { storedUser := some uAnn, storedNotifications := [] })
    (logout { storedUser := some uAnn, storedNotifications := [] })
    true reqFix 5 "abc" rfl
  exact absurd this (by decide)

/-- C2 (corrected, amended).  The tick's guard reads the instance's CACHED
current user, not the store: a tick is a no-op — no notification, no store
write — exactly when the cached user is null, which holds in every instance
constructed while nobody was logged in (the constructor caches the stored
entry).  A logout that only clears the stored entry does not make pending
ticks of an existing instance inert. -/
theorem pollTick_noop_when_cached_user_absent (sys : NotifSys) (env : NotifEnv)
    (draw : Bool) (req : NotifReq) (now : Nat) (sfx : String) :
    (sys.currentUser = none →
      pollTick sys env draw req now sfx = { sys := sys, env := env, wrote := false }) ∧
    (mkSystem env).currentUser = env.storedUser := by
  refine ⟨?_, rfl⟩
  intro h
  simp [pollTick, h]

theorem pollTick_noop_witness :
    pollTick (mkSystem { storedUser := none, storedNotifications := [nFix1] })
        { storedUser := none, storedNotifications := [nFix1] } true reqFix 9 "zz" =
      { sys := mkSystem { storedUser := none, storedNotifications := [nFix1] }
        env := { storedUser := none, storedNotifications := [nFix1] }
        wrote := false } := by
  exact (pollTick_noop_when_cached_user_absent _ _ true reqFix 9 "zz").1 rfl

/-- C3 (corrected, amended).  In the race the claim describes — one explicit
close at T+d with d < D = 5000 against the auto-timeout at T+D — the detach
runs exactly once and no error is raised: whichever trigger fires second
finds the toast already detached, and the auto-timeout path checks
`contains` before removing.  Detached-toast removal attempts through the
guarded paths (toast click, auto-timeout) are silent no-ops; the explicit
close path, however, is NOT guarded, so its removal attempt on an
already-detached toast raises instead of no-opping. -/
theorem toast_removal_exactly_once (d : Nat) (hd : d < 5000) :
    (runRemovals { attached := true } (raceSchedule (some d))).removals = 1 ∧
    (runRemovals { attached := true } (raceSchedule (some d))).errors = 0 ∧
    (runRemovals { attached := true } (raceSchedule none)).removals = 1 ∧
    (runRemovals { attached := true } (raceSchedule none)).errors = 0 ∧
    (∀ p, removalGuarded p = true →
      attemptRemoval { attached := false } p =
        { toast := { attached := false }, removed := false, errored := false }) := by
  have horder : d ≤ 5000 := by omega
  refine ⟨?_, ?_, ?_, ?_, ?_⟩
  · simp [raceSchedule, horder, runRemovals, attemptRemoval, removalGuarded]
  · simp [raceSchedule, horder, runRemovals, attemptRemoval, removalGuarded]
  · rfl
  · rfl
  · intro p hp
    cases p <;> simp_all [attemptRemoval, removalGuarded]

theorem toast_removal_witness :
    (runRemovals { attached := true } (raceSchedule (some 1000))).removals = 1 ∧
    (runRemovals { attached := true } (raceSchedule (some 1000))).errors = 0 := by
  exact ⟨(toast_removal_exactly_once 1000 (by decide)).1,
    (toast_removal_exactly_once 1000 (by decide)).2.1⟩

/-- C3 counterexample.  The claim also states that a removal attempt on an
already-detached toast is always a silent no-op that raises no error; the
close-button path calls `removeChild` without a `contains` guard, so on a
detached toast it raises (concretely: a double click on the close button
within the 300ms exit delay schedules two unguarded detaches and the second
one errors). -/
theorem toast_detached_close_removal_errors :
    (attemptRemoval { attached := false } RemovalPath.closeButton).errored = true ∧
    (runRemovals { attached := true }
        [RemovalPath.closeButton, RemovalPath.closeButton]).errors = 1 := by
  exact ⟨rfl, rfl⟩

theorem sortDesc_eq_self_of_sorted :
    ∀ ns : List Notification, isSortedDesc ns = true → sortDesc ns = ns := by
  intro ns
  induction ns with
  | nil => intro _; rfl
  | cons a l ih =>
    intro h
    match l, h with
    | [], _ => rfl
    | b :: l2, h =>
      have hh : (b.timestamp ≤ a.timestamp) ∧ isSortedDesc (b :: l2) = true := by
        simpa [isSortedDesc] using h
      have hrec : sortDesc (b :: l2) = b :: l2 := ih hh.2
      simp [sortDesc] at hrec ⊢
      rw [hrec, insertDesc, if_pos hh.1]

/-- C8 (confirmed).  When the stored list is in its canonical newest-first
order (which head insertion with a monotone clock maintains — third
conjunct), the stable sort-by-timestamp performed by `renderNotifications` /
`generateNotificationsPage` returns the stored list itself, so the dropdown's
most-recent-5 view is exactly the first 5 elements of storage order:
selection is by stored order, the re-sort is the identity. -/
theorem render_selection_matches_storage_order (ns : List Notification)
    (h : isSortedDesc ns = true) :
    sortDesc ns = ns ∧
    renderSelection ns = ns.take 5 ∧
    (∀ req now sfx, (∀ n ∈ ns, n.timestamp ≤ now) →
      isSortedDesc (mkNotif req now sfx :: ns) = true) := by
  refine ⟨sortDesc_eq_self_of_sorted ns h, ?_, ?_⟩
  · unfold renderSelection
    rw [sortDesc_eq_self_of_sorted ns h]
  · intro req now sfx hmono
    match ns with
    | [] => rfl
    | b :: l2 =>
      have hb : b.timestamp ≤ now := hmono b (List.mem_cons_self b l2)
      simp [isSortedDesc, mkNotif, hb, h]

/-- Third fixture notification (same timestamp as `nFix2`, so the stable
sort must keep storage order between them). -/
def nFix3 : Notification :=
  { id := "n3", type := "review", message := "tie", timestamp := 5
    read := true, seen := false, data := "", link := none }

theorem render_selection_witness :
    sortDesc [nFix1, nFix2, nFix3] = [nFix1, nFix2, nFix3] ∧
    renderSelection [nFix1, nFix2, nFix3] = [nFix1, nFix2, nFix3] := by
  refine ⟨(render_selection_matches_storage_order [nFix1, nFix2, nFix3] (by decide)).1, ?_⟩
  have h := (render_selection_matches_storage_order [nFix1, nFix2, nFix3] (by decide)).2.1
  rw [h]
  rfl

theorem find?_updateFirstConv (cid : String) (f : Conversation → Conversation)
    (hf : ∀ c, (f c).id = c.id) :
    ∀ (l : List Conversation) (c : Conversation),
      l.find? (fun d => d.id = cid) = some c →
      (updateFirstConv cid f l).find? (fun d => d.id = cid) = some (f c) := by
  intro l
  induction l with
  | nil => intro c h; simp at h
  | cons a l ih =>
    intro c h
    by_cases ha : a.id = cid
    · have hd : (decide (a.id = cid)) = true := decide_eq_true ha
      simp only [List.find?_cons, hd] at h
      cases h
      have hfa : ((f a).id = cid) := by rw [hf a]; exact ha
      have hd2 : (decide ((f a).id = cid)) = true := decide_eq_true hfa
      simp only [updateFirstConv, if_pos ha, List.find?_cons, hd2]
    · have hd : (decide (a.id = cid)) = false := decide_eq_false ha
      simp only [List.find?_cons, hd] at h
      simp only [updateFirstConv, if_neg ha, List.find?_cons, hd]
      exact ih c h

/-- C6 (confirmed).  `sendMessage` contract: with a body that is empty after
trimming it rejects (EmptyBody early return) and changes nothing; with an
active conversation id that matches no stored conversation it rejects
(NotFound early return) and changes nothing; otherwise it appends exactly one
message — `read = false`, current timestamp, trimmed text — to the END of
that conversation's message sequence, leaves every other conversation
untouched, and persists the updated list. -/
theorem sendMessage_contract (s : MsgSys) (input : String) (now : Nat) :
    (jsTrim input = "" → sendMessage s input now = (s, SendResult.emptyBody)) ∧
    (jsTrim input ≠ "" → s.activeConversationId = none →
      sendMessage s input now = (s, SendResult.noActive)) ∧
    (∀ cid, jsTrim input ≠ "" → s.activeConversationId = some cid →
      s.conversations.find? (fun c => c.id = cid) = none →
      sendMessage s input now = (s, SendResult.notFound)) ∧
    (∀ cid c, jsTrim input ≠ "" → s.activeConversationId = some cid →
      s.conversations.find? (fun c => c.id = cid) = some c →
      (sendMessage s input now).2 =
        SendResult.sent (mkMessage s.currentUser.id (jsTrim input) now) ∧
      (mkMessage s.currentUser.id (jsTrim input) now).read = false ∧
      (mkMessage s.currentUser.id (jsTrim input) now).timestamp = now ∧
      (sendMessage s input now).1.conversations =
        updateFirstConv cid
          (fun d => { d with
            messages := d.messages ++ [mkMessage s.currentUser.id (jsTrim input) now] })
          s.conversations ∧
      (sendMessage s input now).1.store = (sendMessage s input now).1.conversations ∧
      (sendMessage s input now).1.conversations.find? (fun d => d.id = cid) =
        some { c with
          messages := c.messages ++ [mkMessage s.currentUser.id (jsTrim input) now] } ∧
      (sendMessage s input now).1.currentUser = s.currentUser ∧
      (sendMessage s input now).1.activeConversationId = s.activeConversationId) := by
  refine ⟨?_, ?_, ?_, ?_⟩
  · intro h
    simp [sendMessage, h]
  · intro h1 h2
    simp [sendMessage, h1, h2]
  · intro cid h1 h2 h3
    simp [sendMessage, h1, h2, h3]
  · intro cid c h1 h2 h3
    have hfind := find?_updateFirstConv cid
      (fun d => { d with
        messages := d.messages ++ [mkMessage s.currentUser.id (jsTrim input) now] })
      (fun d => rfl) s.conversations c h3
    refine ⟨?_, rfl, rfl, ?_, ?_, ?_, ?_, ?_⟩ <;>
      simp [sendMessage, h1, h2, h3, hfind]

/-- Fixture current user of the messaging system. -/
def uBob : User := { id := "u2", name := "Bob Johnson" }

/-- Fixture participants. -/
def pAlice : Participant := { id := "u1", name := "Alice Smith", whatsappNumber := some "+1" }

/-- Second fixture participant. -/
def pBob : Participant := { id := "u2", name := "Bob Johnson", whatsappNumber := none }

/-- Fixture message from Alice, unread. -/
def msgFix1 : Message := { id := "m1", senderId := "u1", text := "hi", timestamp := 1, read := false }

/-- Fixture conversation between Alice and Bob about book b1. -/
def convFix : Conversation :=
  { id := "c1", participants := [pAlice, pBob], bookId := "b1"
    bookTitle := "Intro to CS", messages := [msgFix1] }

/-- Fixture messaging state: Bob logged in, `convFix` stored and active. -/
def msgSysFix : MsgSys :=
  { currentUser := uBob, conversations := [convFix], store := [convFix]
    activeConversationId := some "c1" }

theorem sendMessage_witness :
    (sendMessage msgSysFix " yes! " 7).2 =
      SendResult.sent (mkMessage "u2" (jsTrim " yes! ") 7) ∧
    (sendMessage msgSysFix " yes! " 7).1.conversations.find? (fun d => d.id = "c1") =
      some { convFix with
        messages := convFix.messages ++ [mkMessage "u2" (jsTrim " yes! ") 7] } ∧
    sendMessage msgSysFix "   " 7 = (msgSysFix, SendResult.emptyBody) := by
  have h := (sendMessage_contract msgSysFix " yes! " 7).2.2.2 "c1" convFix
    (by decide) rfl (by decide)
  exact ⟨h.1, h.2.2.2.2.2.1, (sendMessage_contract msgSysFix "   " 7).1 (by decide)⟩

theorem updateFirstMatch_length (p : Conversation → Bool) (f : Conversation → Conversation) :
    ∀ l : List Conversation, (updateFirstMatch p f l).length = l.length := by
  intro l
  induction l with
  | nil => rfl
  | cons a l ih =>
    by_cases ha : p a <;> simp [updateFirstMatch, ha, ih]

theorem updateFirstMatch_filter_length (p : Conversation → Bool)
    (f : Conversation → Conversation) (hp : ∀ c, p (f c) = p c) :
    ∀ l : List Conversation,
      ((updateFirstMatch p f l).filter p).length = (l.filter p).length := by
  intro l
  induction l with
  | nil => rfl
  | cons a l ih =>
    by_cases ha : p a
    · simp [updateFirstMatch, ha, List.filter_cons, hp a]
    · simp [updateFirstMatch, ha, List.filter_cons, ih]

theorem updateFirstMatch_map_id (p : Conversation → Bool)
    (f : Conversation → Conversation) (hf : ∀ c, (f c).id = c.id) :
    ∀ l : List Conversation,
      (updateFirstMatch p f l).map (fun c => c.id) = l.map (fun c => c.id) := by
  intro l
  induction l with
  | nil => rfl
  | cons a l ih =>
    by_cases ha : p a <;> simp [updateFirstMatch, ha, ih, hf a]

theorem filter_eq_nil_of_find?_eq_none {α : Type} (p : α → Bool) :
    ∀ l : List α, l.find? p = none → l.filter p = [] := by
  intro l
  induction l with
  | nil => intro _; rfl
  | cons a l ih =>
    intro h
    cases ha : p a with
    | true => simp [List.find?_cons, ha] at h
    | false =>
      simp only [List.find?_cons, ha] at h
      simp [List.filter_cons, ha, ih h]

theorem filter_pos_of_find?_eq_some {α : Type} (p : α → Bool) :
    ∀ (l : List α) (c : α), l.find? p = some c → 0 < (l.filter p).length := by
  intro l
  induction l with
  | nil => intro c h; simp at h
  | cons a l ih =>
    intro c h
    cases ha : p a with
    | true => simp [List.filter_cons, ha]
    | false =>
      simp only [List.find?_cons, ha] at h
      simpa [List.filter_cons, ha] using ih c h

/-- The fresh conversation built by `createOrUpdateConversation` matches its
own lookup predicate (same book, both participants present). -/
theorem convMatches_new (me : User) (bookId bookTitle sellerId sellerName
    messageText : String) (now : Nat) :
    convMatches bookId me.id sellerId
      { id := toString now
        participants :=
          [ { id := me.id, name := me.name, whatsappNumber := none }
          , { id := sellerId, name := sellerName, whatsappNumber := some "" } ]
        bookId := bookId
        bookTitle := bookTitle
        messages := [mkMessage me.id messageText now] } = true := by
  simp [convMatches]

theorem createOrUpdate_count_max (me : User) (bookId bookTitle sellerId
    sellerName msg : String) (now : Nat) (store : List Conversation) :
    countMatching bookId me.id sellerId
      (createOrUpdateConversation me bookId bookTitle sellerId sellerName msg now store) =
    max (countMatching bookId me.id sellerId store) 1 := by
  unfold createOrUpdateConversation countMatching
  cases hfind : store.find? (convMatches bookId me.id sellerId) with
  | none =>
    have hnil := filter_eq_nil_of_find?_eq_none _ store hfind
    simp [List.filter_append, hnil,
      convMatches_new me bookId bookTitle sellerId sellerName msg now]
  | some c =>
    have hpos := filter_pos_of_find?_eq_some _ store c hfind
    dsimp only
    rw [updateFirstMatch_filter_length (convMatches bookId me.id sellerId)
      (fun c => { c with messages := c.messages ++ [mkMessage me.id msg now] })
      (fun d => rfl)]
    exact (Nat.max_eq_left hpos).symm

theorem createOrUpdate_length (me : User) (bookId bookTitle sellerId
    sellerName msg : String) (now : Nat) (store : List Conversation) :
    (createOrUpdateConversation me bookId bookTitle sellerId sellerName msg now store).length =
      if countMatching bookId me.id sellerId store = 0
      then store.length + 1 else store.length := by
  unfold createOrUpdateConversation countMatching
  cases hfind : store.find? (convMatches bookId me.id sellerId) with
  | none =>
    have hnil := filter_eq_nil_of_find?_eq_none _ store hfind
    simp [hnil]
  | some c =>
    have hpos := filter_pos_of_find?_eq_some _ store c hfind
    dsimp only
    rw [updateFirstMatch_length]
    rw [if_neg (by omega)]

theorem createOrUpdate_map_id (me : User) (bookId bookTitle sellerId
    sellerName msg : String) (now : Nat) (store : List Conversation)
    (h : countMatching bookId me.id sellerId store ≠ 0) :
    (createOrUpdateConversation me bookId bookTitle sellerId sellerName msg now store).map
        (fun c => c.id) =
      store.map (fun c => c.id) := by
  unfold createOrUpdateConversation
  cases hfind : store.find? (convMatches bookId me.id sellerId) with
  | none =>
    have hnil := filter_eq_nil_of_find?_eq_none _ store hfind
    exact absurd (by simp [countMatching, hnil]) h
  | some c =>
    dsimp only
    exact updateFirstMatch_map_id (convMatches bookId me.id sellerId)
      (fun c => { c with messages := c.messages ++ [mkMessage me.id msg now] })
      (fun d => rfl) store

/-- C1 (corrected, amended).  `BookMessaging.createOrUpdateConversation`
does enforce the conversation-identity invariant: one call brings the number
of conversations for (book, unordered pair {me, seller}) to the maximum of
its old value and 1, a call on a store that already has a matching
conversation creates nothing (same length, all conversation ids unchanged —
the message is appended to the existing conversation), and in particular a
second call with the same participants and book reuses the conversation made
by the first.  (`MessagingSystem.createNewConversation` performs no such
resolution; see the counterexample.) -/
theorem createOrUpdate_identity_invariant (me : User) (bookId bookTitle
    sellerId sellerName msg msg2 : String) (now now2 : Nat)
    (store : List Conversation) :
    countMatching bookId me.id sellerId
        (createOrUpdateConversation me bookId bookTitle sellerId sellerName msg now store) =
      max (countMatching bookId me.id sellerId store) 1 ∧
    (countMatching bookId me.id sellerId store = 0 →
      (createOrUpdateConversation me bookId bookTitle sellerId sellerName msg now store).length =
        store.length + 1) ∧
    (countMatching bookId me.id sellerId store ≠ 0 →
      (createOrUpdateConversation me bookId bookTitle sellerId sellerName msg now store).length =
          store.length ∧
      (createOrUpdateConversation me bookId bookTitle sellerId sellerName msg now store).map
          (fun c => c.id) =
        store.map (fun c => c.id)) ∧
    countMatching bookId me.id sellerId
        (createOrUpdateConversation me bookId bookTitle sellerId sellerName msg2 now2
          (createOrUpdateConversation me bookId bookTitle sellerId sellerName msg now store)) =
      max (countMatching bookId me.id sellerId store) 1 ∧
    (createOrUpdateConversation me bookId bookTitle sellerId sellerName msg2 now2
        (createOrUpdateConversation me bookId bookTitle sellerId sellerName msg now store)).length =
      (createOrUpdateConversation me bookId bookTitle sellerId sellerName msg now store).length ∧
    (createOrUpdateConversation me bookId bookTitle sellerId sellerName msg2 now2
        (createOrUpdateConversation me bookId bookTitle sellerId sellerName msg now store)).map
        (fun c => c.id) =
      (createOrUpdateConversation me bookId bookTitle sellerId sellerName msg now store).map
        (fun c => c.id) := by
  have h1 := createOrUpdate_count_max me bookId bookTitle sellerId sellerName msg now store
  have hne : countMatching bookId me.id sellerId
      (createOrUpdateConversation me bookId bookTitle sellerId sellerName msg now store) ≠ 0 := by
    rw [h1]; omega
  refine ⟨h1, ?_, ?_, ?_, ?_, ?_⟩
  · intro h0
    rw [createOrUpdate_length, if_pos h0]
  · intro hn
    exact ⟨by rw [createOrUpdate_length, if_neg hn],
      createOrUpdate_map_id me bookId bookTitle sellerId sellerName msg now store hn⟩
  · rw [createOrUpdate_count_max, h1]
    omega
  · rw [createOrUpdate_length, if_neg hne]
  · exact createOrUpdate_map_id me bookId bookTitle sellerId sellerName msg2 now2 _ hne

theorem createOrUpdate_identity_witness :
    countMatching "b1" "u2" "u9"
        (createOrUpdateConversation uBob "b1" "T" "u9" "Sel" "hi" 100 []) = 1 ∧
    (createOrUpdateConversation uBob "b1" "T" "u9" "Sel" "hi" 100 []).length = 0 + 1 ∧
    countMatching "b1" "u2" "u9"
        (createOrUpdateConversation uBob "b1" "T" "u9" "Sel" "again" 200
          (createOrUpdateConversation uBob "b1" "T" "u9" "Sel" "hi" 100 [])) = 1 ∧
    (createOrUpdateConversation uBob "b1" "T" "u9" "Sel" "again" 200
        (createOrUpdateConversation uBob "b1" "T" "u9" "Sel" "hi" 100 [])).length =
      (createOrUpdateConversation uBob "b1" "T" "u9" "Sel" "hi" 100 []).length := by
  have h := createOrUpdate_identity_invariant uBob "b1" "T" "u9" "Sel" "hi" "again" 100 200 []
  exact ⟨h.1, h.2.1 (by decide), h.2.2.2.1, h.2.2.2.2.1⟩

/-- Fixture user handed to `createNewConversation`. -/
def otherFix : OtherUser := { id := "u9", name := "Seller", whatsappNumber := none }

/-- Fixture book. -/
def bookFix : Book := { id := "b9", title := "Algorithms" }

/-- Fixture messaging state with no conversations. -/
def msgSysEmpty : MsgSys :=
  { currentUser := uBob, conversations := [], store := [], activeConversationId := none }

/-- C1 counterexample.  `MessagingSystem.createNewConversation` called twice
with the same participants and the same book creates a second conversation
for the same pair+item (two matching conversations exist afterwards) and
returns a different conversation id, so the claim — taken over both
conversation-creation operations it cites — is false. -/
theorem createNewConversation_duplicates :
    countMatching "b9" "u2" "u9"
        ((createNewConversation
            ((createNewConversation msgSysEmpty otherFix bookFix "hi" 100).1)
            otherFix bookFix "hi" 200).1).conversations = 2 ∧
    (createNewConversation msgSysEmpty otherFix bookFix "hi" 100).2 ≠
      (createNewConversation
          ((createNewConversation msgSysEmpty otherFix bookFix "hi" 100).1)
          otherFix bookFix "hi" 200).2 := by
  exact ⟨by decide, by decide⟩

theorem my_get?_append {α : Type} (l l2 : List α) :
    ∀ (n : Nat) (a : α), l.get? n = some a → (l ++ l2).get? n = some a := by
  induction l with
  | nil => intro n a h; simp at h
  | cons x l ih =>
    intro n a h
    cases n with
    | zero => simpa using h
    | succ k =>
      simp only [List.cons_append, List.get?_cons_succ] at h ⊢
      exact ih k a h

theorem get?_updateFirstConv (cid : String) (f : Conversation → Conversation) :
    ∀ (l : List Conversation) (i : Nat),
      (updateFirstConv cid f l).get? i = l.get? i ∨
      ∃ c, l.get? i = some c ∧ c.id = cid ∧
        (updateFirstConv cid f l).get? i = some (f c) := by
  intro l
  induction l with
  | nil => intro i; left; rfl
  | cons a l ih =>
    intro i
    by_cases ha : a.id = cid
    · cases i with
      | zero => right; exact ⟨a, rfl, ha, by simp [updateFirstConv, ha]⟩
      | succ n => left; simp [updateFirstConv, ha]
    · cases i with
      | zero => left; simp [updateFirstConv, ha]
      | succ n =>
        rcases ih n with h | ⟨c, h1, h2, h3⟩
        · left; simpa [updateFirstConv, ha] using h
        · right; exact ⟨c, h1, h2, by simpa [updateFirstConv, ha] using h3⟩

/-- A conversation update that never turns a true `read` flag false (at any
message position). -/
def convReadMono (c c2 : Conversation) : Prop :=
  ∀ j, (c.messages.get? j).map (fun m => m.read) = some true →
    (c2.messages.get? j).map (fun m => m.read) = some true

theorem my_get?_map {α β : Type} (f : α → β) :
    ∀ (l : List α) (n : Nat), (l.map f).get? n = (l.get? n).map f := by
  intro l
  induction l with
  | nil => intro n; rfl
  | cons x l ih =>
    intro n
    cases n with
    | zero => rfl
    | succ k => exact ih k

theorem convReadMono_append (c : Conversation) (m : Message) :
    convReadMono c { c with messages := c.messages ++ [m] } := by
  intro j hj
  rcases Option.map_eq_some'.1 hj with ⟨a, ha, hr⟩
  show ((c.messages ++ [m]).get? j).map (fun m => m.read) = some true
  rw [my_get?_append c.messages [m] j a ha, Option.map_some']
  rw [hr]

theorem convReadMono_markRead (c : Conversation) (uid : String) :
    convReadMono c
      { c with messages := c.messages.map (fun m =>
          if m.senderId = uid then m else { m with read := true }) } := by
  intro j hj
  rcases Option.map_eq_some'.1 hj with ⟨a, ha, hr⟩
  show ((c.messages.map (fun m =>
      if m.senderId = uid then m else { m with read := true })).get? j).map
        (fun m => m.read) = some true
  rw [my_get?_map, ha, Option.map_some', Option.map_some']
  by_cases hs : a.senderId = uid
  · rw [if_pos hs, hr]
  · rw [if_neg hs]

theorem readAtL_updateFirstConv (cid : String) (f : Conversation → Conversation)
    (hf : ∀ c, convReadMono c (f c)) (l : List Conversation) (i j : Nat)
    (h : readAtL l i j = some true) :
    readAtL (updateFirstConv cid f l) i j = some true := by
  rcases get?_updateFirstConv cid f l i with hg | ⟨c, h1, _, h3⟩
  · unfold readAtL at h ⊢
    rw [hg]
    exact h
  · unfold readAtL at h ⊢
    rw [h1] at h
    rw [h3]
    exact hf c j h

theorem readAtL_append (l : List Conversation) (c : Conversation) (i j : Nat)
    (h : readAtL l i j = some true) : readAtL (l ++ [c]) i j = some true := by
  unfold readAtL at h ⊢
  cases hg : l.get? i with
  | none => rw [hg] at h; simp at h
  | some d =>
    rw [hg] at h
    rw [my_get?_append l [c] i d hg]
    exact h

theorem msgStep_sync (s : MsgSys) (op : MsgOp) (h : s.store = s.conversations) :
    (msgStep s op).store = (msgStep s op).conversations := by
  cases op with
  | send input now =>
    unfold msgStep sendMessage
    by_cases ht : jsTrim input = ""
    · simpa [ht] using h
    · cases ha : s.activeConversationId with
      | none => simpa [ht, ha] using h
      | some cid =>
        cases hfi : s.conversations.find? (fun c => c.id = cid) with
        | none => simpa [ht, ha, hfi] using h
        | some c => simp [ht, ha, hfi]
  | markRead cid =>
    unfold msgStep markMessagesAsRead
    cases hfi : s.conversations.find? (fun c => c.id = cid) with
    | none => simpa [hfi] using h
    | some c => simp [hfi]
  | selectConv cid => simpa [msgStep] using h
  | newConv other book msg now => simp [msgStep, createNewConversation]
  | reload => simp [msgStep]

theorem msgStep_readAt_mono (s : MsgSys) (op : MsgOp)
    (hsync : s.store = s.conversations) (i j : Nat)
    (h : readAt s i j = some true) : readAt (msgStep s op) i j = some true := by
  cases op with
  | send input now =>
    unfold readAt msgStep sendMessage
    unfold readAt at h
    by_cases ht : jsTrim input = ""
    · simpa [ht] using h
    · cases ha : s.activeConversationId with
      | none => simpa [ht, ha] using h
      | some cid =>
        cases hfi : s.conversations.find? (fun c => c.id = cid) with
        | none => simpa [ht, ha, hfi] using h
        | some c =>
          simp only [ht, ha, hfi, if_neg ht]
          exact readAtL_updateFirstConv cid _
            (fun d => convReadMono_append d (mkMessage s.currentUser.id (jsTrim input) now))
            s.conversations i j h
  | markRead cid =>
    unfold readAt msgStep markMessagesAsRead
    unfold readAt at h
    cases hfi : s.conversations.find? (fun c => c.id = cid) with
    | none => simpa [hfi] using h
    | some c =>
      simp only [hfi]
      exact readAtL_updateFirstConv cid _
        (fun d => convReadMono_markRead d s.currentUser.id) s.conversations i j h
  | selectConv cid => exact h
  | newConv other book msg now =>
    unfold readAt msgStep createNewConversation
    unfold readAt at h
    exact readAtL_append s.conversations _ i j h
  | reload =>
    unfold readAt msgStep
    unfold readAt at h
    rw [hsync]
    exact h

theorem msgRun_readAt_mono :
    ∀ (ops : List MsgOp) (s : MsgSys), s.store = s.conversations →
      ∀ i j : Nat, readAt s i j = some true →
        readAt (msgRun s ops) i j = some true := by
  intro ops
  induction ops with
  | nil => intro s _ i j h; exact h
  | cons op ops ih =>
    intro s hsync i j h
    exact ih (msgStep s op) (msgStep_sync s op hsync) i j
      (msgStep_readAt_mono s op hsync i j h)

theorem no_flip_same {m m2 : Message} (hf : m.read = false) (ht : m2.read = true)
    (h : (some m : Option Message) = some m2) : False := by
  cases Option.some.inj h
  rw [hf] at ht
  exact Bool.false_ne_true ht

theorem sendMessage_conversations_shape (s : MsgSys) (input : String) (now : Nat) :
    (sendMessage s input now).1.conversations = s.conversations ∨
    ∃ cid, s.activeConversationId = some cid ∧
      (sendMessage s input now).1.conversations =
        updateFirstConv cid
          (fun d => { d with
            messages := d.messages ++ [mkMessage s.currentUser.id (jsTrim input) now] })
          s.conversations := by
  unfold sendMessage
  by_cases htr : jsTrim input = ""
  · left; simp [htr]
  · cases hact : s.activeConversationId with
    | none => left; simp [htr, hact]
    | some cid =>
      cases hfi : s.conversations.find? (fun c => c.id = cid) with
      | none => left; simp [htr, hact, hfi]
      | some c => right; exact ⟨cid, rfl, by simp [htr, hact, hfi]⟩

theorem msgStep_flip (s : MsgSys) (op : MsgOp) (i j : Nat) (m m2 : Message)
    (hsync : s.store = s.conversations)
    (hb : msgAt s i j = some m) (ha : msgAt (msgStep s op) i j = some m2)
    (hf : m.read = false) (ht : m2.read = true) :
    (∃ cid, op = MsgOp.markRead cid) ∧ m.senderId ≠ s.currentUser.id := by
  cases op with
  | send input now =>
    exfalso
    unfold msgAt msgAtL at hb
    unfold msgAt msgAtL msgStep at ha
    rcases sendMessage_conversations_shape s input now with hsh | ⟨cid, hact, hsh⟩
    · rw [hsh] at ha
      exact no_flip_same hf ht (hb.symm.trans ha)
    · rw [hsh] at ha
      rcases get?_updateFirstConv cid
          (fun d => { d with
            messages := d.messages ++ [mkMessage s.currentUser.id (jsTrim input) now] })
          s.conversations i with hg | ⟨c2, h1, h2, h3⟩
      · rw [hg] at ha
        exact no_flip_same hf ht (hb.symm.trans ha)
      · rw [h3] at ha
        rw [h1] at hb
        simp only [Option.some_bind] at hb ha
        rw [my_get?_append c2.messages _ j m hb] at ha
        exact no_flip_same hf ht ha
  | markRead cid =>
    unfold msgAt msgAtL at hb
    unfold msgAt msgStep markMessagesAsRead msgAtL at ha
    cases hfi : s.conversations.find? (fun c => c.id = cid) with
    | none =>
      exfalso
      simp only [hfi] at ha
      exact no_flip_same hf ht (hb.symm.trans ha)
    | some c =>
      simp only [hfi] at ha
      rcases get?_updateFirstConv cid
          (fun d => { d with
            messages := d.messages.map (fun mm =>
              if mm.senderId = s.currentUser.id then mm
              else { mm with read := true }) })
          s.conversations i with hg | ⟨c2, h1, h2, h3⟩
      · exfalso
        rw [hg] at ha
        exact no_flip_same hf ht (hb.symm.trans ha)
      · rw [h3] at ha
        rw [h1] at hb
        simp only [Option.some_bind] at hb ha
        rw [my_get?_map, hb, Option.map_some'] at ha
        by_cases hs : m.senderId = s.currentUser.id
        · exfalso
          rw [if_pos hs] at ha
          exact no_flip_same hf ht ha
        · exact ⟨⟨cid, rfl⟩, hs⟩
  | selectConv cid =>
    exfalso
    exact no_flip_same hf ht (hb.symm.trans ha)
  | newConv other book msg now =>
    exfalso
    unfold msgAt msgAtL at hb
    unfold msgAt msgStep createNewConversation msgAtL at ha
    cases hg : s.conversations.get? i with
    | none =>
      rw [hg] at hb
      simp at hb
    | some c2 =>
      rw [my_get?_append s.conversations _ i c2 hg] at ha
      rw [hg] at hb
      exact no_flip_same hf ht (hb.symm.trans ha)
  | reload =>
    exfalso
    unfold msgAt msgAtL at hb
    unfold msgAt msgStep msgAtL at ha
    rw [hsync] at ha
    exact no_flip_same hf ht (hb.symm.trans ha)

/-- C9 (corrected, amended).  Message read-flag policy over every sequence of
messaging operations (append, mark-read, conversation creation, selection,
persistence round-trips), starting from any state whose persisted snapshot is
in sync with memory (as the constructor guarantees): a `read` flag observed
true stays true forever (monotone false→true only), and a false→true flip
can only be produced by a mark-read operation whose reader — the system's
current user — is not the message's sender.  (The code does NOT additionally
require the reader to be a participant of the conversation; see the
counterexample.) -/
theorem message_read_flag_policy :
    (∀ (s : MsgSys) (ops : List MsgOp) (i j : Nat),
      s.store = s.conversations →
      readAt s i j = some true →
      readAt (msgRun s ops) i j = some true) ∧
    (∀ (s : MsgSys) (op : MsgOp) (i j : Nat) (m m2 : Message),
      s.store = s.conversations →
      msgAt s i j = some m →
      msgAt (msgStep s op) i j = some m2 →
      m.read = false → m2.read = true →
      (∃ cid, op = MsgOp.markRead cid) ∧ m.senderId ≠ s.currentUser.id) :=
  ⟨fun s ops i j h1 h2 => msgRun_readAt_mono ops s h1 i j h2, msgStep_flip⟩

/-- Fixture conversation whose only message is already read. -/
def convFixRead : Conversation :=
  { convFix with messages := [{ msgFix1 with read := true }] }

/-- Fixture messaging state around `convFixRead`. -/
def msgSysRead : MsgSys :=
  { currentUser := uBob, conversations := [convFixRead], store := [convFixRead]
    activeConversationId := some "c1" }

/-- Fixture messaging state around the unread `convFix`. -/
def msgSysB : MsgSys :=
  { currentUser := uBob, conversations := [convFix], store := [convFix]
    activeConversationId := none }

theorem message_read_flag_policy_witness :
    readAt (msgRun msgSysRead
        [MsgOp.markRead "c1", MsgOp.send " ok " 9, MsgOp.reload]) 0 0 = some true ∧
    msgFix1.senderId ≠ msgSysB.currentUser.id := by
  constructor
  · exact message_read_flag_policy.1 msgSysRead
      [MsgOp.markRead "c1", MsgOp.send " ok " 9, MsgOp.reload] 0 0 rfl rfl
  · exact (message_read_flag_policy.2 msgSysB (MsgOp.markRead "c1") 0 0
      msgFix1 { msgFix1 with read := true } rfl rfl (by decide) rfl rfl).2

/-- The read-flag claim as stated: a false→true flip additionally requires
the reader (the system's current user) to be a PARTICIPANT of the
conversation. -/
def claimReadSetByParticipant : Prop :=
  ∀ (s : MsgSys) (op : MsgOp) (i j : Nat) (m m2 : Message),
    s.store = s.conversations →
    msgAt s i j = some m →
    msgAt (msgStep s op) i j = some m2 →
    m.read = false → m2.read = true →
    m.senderId ≠ s.currentUser.id ∧
    ∃ c, s.conversations.get? i = some c ∧
      s.currentUser.id ∈ c.participants.map (fun p => p.id)

/-- Fixture: Carol, who is not a participant of `convFix`. -/
def uCarol : User := { id := "u3", name := "Carol" }

/-- Fixture messaging state: Carol's session sees Alice and Bob's
conversation (the store holds ALL conversations and nothing filters by
participant). -/
def msgSysCarol : MsgSys :=
  { currentUser := uCarol, conversations := [convFix], store := [convFix]
    activeConversationId := none }

/-- C9 counterexample.  `markMessagesAsRead` never checks that the reader is
a participant: with Carol (id u3) logged in, marking Alice-and-Bob's
conversation read flips Alice's message to `read = true` although Carol is
not a participant — so the claim's "set only by a read performed by a
participant" is false on the code. -/
theorem read_set_by_nonparticipant :
    msgAt (msgStep msgSysCarol (MsgOp.markRead "c1")) 0 0 =
      some { msgFix1 with read := true } ∧
    ¬ claimReadSetByParticipant := by
  constructor
  · decide
  · intro h
    rcases (h msgSysCarol (MsgOp.markRead "c1") 0 0 msgFix1
        { msgFix1 with read := true } rfl rfl (by decide) rfl rfl).2
      with ⟨c, hc, hmem⟩
    have hcv : (some convFix : Option Conversation) = some c := hc
    cases Option.some.inj hcv
    exact absurd hmem (by decide)

end BookSwap
